import Mathlib

/-!
Shallow embedding of the authentication core of the Event Board backend
(`app/core/config.py`, `app/core/security.py`, `app/api/deps.py`,
`app/api/routes/auth.py`), together with models of the two external
collaborators the auth layer calls into:

* passlib's `CryptContext(schemes=["pbkdf2_sha256"])` — hashing is
  idealised as an injective tagged value carrying the plaintext and the
  salt (PBKDF2 is collision-free for the purposes of these claims);
  `CryptContext.verify` raises `ValueError` when the stored hash cannot
  be identified as one of the configured schemes, which the model
  renders as an `Except` error.
* python-jose's `jwt.encode` / `jwt.decode` — a token string is either a
  well-formed JWT signed under some secret and algorithm, or malformed;
  signature forgery is idealised away.  `jwt.decode` fails (raises
  `JWTError`) on malformed input, on a header algorithm outside the
  allowed list, on a signature mismatch, and on an `exp` claim in the
  past; a missing `sub` claim is not an error (`payload.get("sub")`
  simply yields `None`).

Time is modelled as an integer timestamp in seconds passed explicitly to
every function that reads the clock; durations (`timedelta`) are integer
second counts.  Python's falsiness of the empty string is modelled
explicitly wherever the source tests `if not token:` / `if not user_id:`
on a value that may be `""`.

The user store (`database.prisma`, whose module is not part of the
source tree) is modelled from the spec: `find_user_by_email`,
`find_user_by_id`, `create_user` over an explicit list of users, with
read-your-writes consistency.
-/

namespace EventBoard

/-- Decidable equality for `Except`, so concrete runs of the fallible
operations can be checked by `decide`. -/
instance {ε α : Type} [DecidableEq ε] [DecidableEq α] : DecidableEq (Except ε α) := fun x y =>
  match x, y with
  | .ok a, .ok b =>
    if h : a = b then .isTrue (by rw [h]) else .isFalse (by intro hc; cases hc; exact h rfl)
  | .error a, .error b =>
    if h : a = b then .isTrue (by rw [h]) else .isFalse (by intro hc; cases hc; exact h rfl)
  | .ok _, .error _ => .isFalse (by intro hc; cases hc)
  | .error _, .ok _ => .isFalse (by intro hc; cases hc)

/-! ### `app/core/config.py` -/

/-- `Settings` from `core/config.py`: application settings, with the
in-code defaults used when the corresponding environment variables are
absent (the model does not carry an environment).
`access_token_expire_minutes` is in minutes, as in the source. -/
structure Settings where
  app_name : String
  secret_key : String
  algorithm : String
  access_token_expire_minutes : Int
  deriving DecidableEq, Repr

/-- `get_settings()`: cached, hence one fixed value per process;
the model uses the defaults from `config.py`. -/
def get_settings : Settings :=
  { app_name := "Event Board"
    secret_key := "change-me-in-production-use-env"
    algorithm := "HS256"
    access_token_expire_minutes := 1440 }

/-! ### passlib model and `app/core/security.py` hashing -/

/-- A stored password hash string.  `pbkdf2` is a well-formed
`$pbkdf2-sha256$...` hash, idealised as carrying the hashed plaintext
and the salt (PBKDF2-SHA256 is treated as collision-free); `malformed`
is any other string — one that passlib cannot identify as a hash of a
configured scheme. -/
inductive StoredHash where
  | pbkdf2 (password : String) (salt : Nat)
  | malformed (raw : String)
  deriving DecidableEq, Repr

/-- Exceptions the Python layer can leak. -/
inductive PyError where
  /-- passlib: `ValueError: hash could not be identified`. -/
  | valueError (msg : String)
  deriving DecidableEq, Repr

/-- Model of `pwd_context.verify` for
`CryptContext(schemes=["pbkdf2_sha256"])`: recomputes the hash with the
embedded salt and compares; raises `ValueError` when the stored string
is not identifiable as a pbkdf2_sha256 hash. -/
def pwd_context_verify (plain : String) (hashed : StoredHash) : Except PyError Bool :=
  match hashed with
  | .pbkdf2 password _salt => .ok (plain == password)
  | .malformed _ => .error (.valueError "hash could not be identified")

/-- `hash_password` from `core/security.py`: delegates to
`pwd_context.hash`, which draws a fresh salt; the salt is made an
explicit argument. -/
def hash_password (password : String) (salt : Nat) : StoredHash :=
  .pbkdf2 password salt

/-- `verify_password` from `core/security.py`: a bare delegation to
`pwd_context.verify`, with no exception handling of its own. -/
def verify_password (plain_password : String) (hashed_password : StoredHash) :
    Except PyError Bool :=
  pwd_context_verify plain_password hashed_password

/-! ### python-jose model and `app/core/security.py` token codec -/

/-- The claim set carried by a token, as built by `create_access_token`
(`{"exp": ..., "sub": ...}`); both claims are optional so that foreign
tokens lacking one of them are representable.  `exp` is a timestamp in
seconds. -/
structure Claims where
  sub : Option String
  exp : Option Int
  deriving DecidableEq, Repr

/-- A token string: either a well-formed JWT whose signature verifies
under `secret` with header algorithm `alg`, or any other string
(malformed / tampered — idealising away signature forgery). -/
inductive JWT where
  | signed (claims : Claims) (secret : String) (alg : String)
  | malformed (raw : String)
  deriving DecidableEq, Repr

/-- The failure cases of `jose.jwt.decode` (all subclasses of
`JWTError`, which is what `decode_access_token` catches). -/
inductive JWTError where
  | malformedToken
  | algorithmNotAllowed
  | signatureMismatch
  | expired
  deriving DecidableEq, Repr

/-- Model of `jose.jwt.encode(claims, key, algorithm)`. -/
def jose_encode (claims : Claims) (key : String) (algorithm : String) : JWT :=
  .signed claims key algorithm

/-- Model of `jose.jwt.decode(token, key, algorithms=algs)` at time
`now`: rejects malformed input, a header algorithm outside `algs`, a
signature that does not verify under `key`, and an `exp` claim in the
past (python-jose raises `ExpiredSignatureError` when `exp < now`, with
zero leeway); a missing `exp` claim is not checked. -/
def jose_decode (token : JWT) (key : String) (algs : List String) (now : Int) :
    Except JWTError Claims :=
  match token with
  | .malformed _ => .error .malformedToken
  | .signed claims secret alg =>
    if alg ∉ algs then .error .algorithmNotAllowed
    else if secret ≠ key then .error .signatureMismatch
    else
      match claims.exp with
      | some e => if e < now then .error .expired else .ok claims
      | none => .ok claims

/-- `create_access_token` from `core/security.py`: claim set
`{"exp": now + ttl, "sub": str(subject)}` signed with the configured
secret and algorithm.  `expires_delta` is the optional `timedelta`
argument in seconds; the source tests it by truthiness
(`if expires_delta:`), and `timedelta(0)` is falsy in Python, so both
an absent argument and a zero duration fall back to the configured
default TTL (in minutes). -/
def create_access_token (subject : String) (expires_delta : Option Int) (now : Int) : JWT :=
  let settings := get_settings
  let expire : Int :=
    match expires_delta with
    | some d =>
      if d ≠ 0 then now + d else now + 60 * settings.access_token_expire_minutes
    | none => now + 60 * settings.access_token_expire_minutes
  jose_encode { sub := some subject, exp := some expire } settings.secret_key settings.algorithm

/-- `decode_access_token` from `core/security.py`: decodes under the
configured secret with the configured algorithm as the only allowed
one, returns `payload.get("sub")` on success and `None` on any
`JWTError`. -/
def decode_access_token (token : JWT) (now : Int) : Option String :=
  let settings := get_settings
  match jose_decode token settings.secret_key [settings.algorithm] now with
  | .ok payload => payload.sub
  | .error _ => none

/-! ### Requests and `app/api/deps.py` -/

/-- Python falsiness of a token string: `not token` holds exactly for
`None` (handled at the `Option` layer) and the empty string, which in
the `JWT` model is the malformed string `""`. -/
def JWT.isFalsy (t : JWT) : Bool :=
  t == .malformed ""

/-- An `Authorization` header value, split at its first space as
FastAPI's `get_authorization_scheme_param` does
(`scheme, _, param = value.partition(" ")`): `scheme` is the text
before the first space, `param` the (token-string) remainder — the
empty remainder being `JWT.malformed ""`. -/
structure AuthHeaderVal where
  scheme : String
  param : JWT
  deriving DecidableEq, Repr

/-- The slice of an HTTP request the session resolvers read: the
`Authorization` header (if present) and the `access_token` cookie (if
present; an empty cookie value is `JWT.malformed ""`). -/
structure Request where
  authorization : Option AuthHeaderVal
  cookieAccessToken : Option JWT
  deriving DecidableEq, Repr

/-- An `HTTPException` as raised in this code base: status code, detail
string, and whether a `WWW-Authenticate: Bearer` challenge header is
attached. -/
structure HTTPError where
  status : Nat
  detail : String
  wwwAuthenticate : Bool
  deriving DecidableEq, Repr

/-- 401 `"Not authenticated"` with a `WWW-Authenticate` challenge
(`get_current_user_id`, no token extracted). -/
def notAuthenticatedErr : HTTPError :=
  { status := 401, detail := "Not authenticated", wwwAuthenticate := true }

/-- 401 `"Invalid or expired token"` with a `WWW-Authenticate`
challenge (`get_current_user_id`, decode failed). -/
def invalidTokenErr : HTTPError :=
  { status := 401, detail := "Invalid or expired token", wwwAuthenticate := true }

/-- 401 `"User not found"`, no challenge header (`get_current_user`,
valid token whose subject has no account). -/
def userNotFoundErr : HTTPError :=
  { status := 401, detail := "User not found", wwwAuthenticate := false }

/-- Python's `str.lower()` restricted to ASCII (header schemes are
ASCII), character by character. -/
def lowerString (s : String) : String :=
  ⟨s.data.map Char.toLower⟩

/-- Model of the `HTTPBearer(auto_error=False)` dependency
(`security_bearer`): reads the `Authorization` header, splits it into
scheme and credentials, and yields the credentials when the header is
present, both parts are non-empty, and the scheme is `bearer`
case-insensitively; otherwise `None` (no exception, since
`auto_error=False`). -/
def security_bearer (authorization : Option AuthHeaderVal) : Option JWT :=
  match authorization with
  | none => none
  | some v =>
    if v.scheme ≠ "" ∧ ¬ v.param.isFalsy ∧ lowerString v.scheme = "bearer" then some v.param
    else none

/-- `get_current_user_id` from `api/deps.py`: takes the `HTTPBearer`
credentials if present, else the `access_token` cookie; 401
`"Not authenticated"` when the result is falsy, otherwise decodes and
returns the subject, with 401 `"Invalid or expired token"` when
decoding fails or yields a falsy subject (`if not user_id:`). -/
def get_current_user_id (req : Request) (now : Int) : Except HTTPError String :=
  let token : Option JWT :=
    match security_bearer req.authorization with
    | some c => some c
    | none => req.cookieAccessToken
  match token with
  | none => .error notAuthenticatedErr
  | some t =>
    if t.isFalsy then .error notAuthenticatedErr
    else
      match decode_access_token t now with
      | none => .error invalidTokenErr
      | some user_id =>
        if user_id = "" then .error invalidTokenErr else .ok user_id

/-- `get_optional_user_id` from `api/deps.py`: reads the cookie first
and falls back to the `Authorization` header only when the cookie is
absent or falsy; the header is used only when it starts with the exact
text `"Bearer "` (case-sensitive `startswith`, unlike `HTTPBearer`);
returns `None` when no (truthy) token was extracted, else the decode
result as-is. -/
def get_optional_user_id (req : Request) (now : Int) : Option String :=
  let cookieTok : Option JWT := req.cookieAccessToken
  let token : Option JWT :=
    match cookieTok with
    | some c =>
      if c.isFalsy then
        match req.authorization with
        | some v => if v.scheme = "Bearer" then some v.param else cookieTok
        | none => cookieTok
      else some c
    | none =>
      match req.authorization with
      | some v => if v.scheme = "Bearer" then some v.param else none
      | none => none
  match token with
  | none => none
  | some t => if t.isFalsy then none else decode_access_token t now

/-! ### User store (`database.prisma`) and `app/api/routes/auth.py` -/

/-- A `User` record of the Prisma data model, restricted to the fields
the auth core reads.  The source probes both spellings
`password_hash`/`passwordHash` via `getattr`; the model has the one
canonical field, optional since a record could lack it (in which case
both probes yield `None`). -/
structure User where
  id : String
  email : String
  passwordHash : Option StoredHash
  deriving DecidableEq, Repr

/-- The user store: the state behind `database.prisma`'s user table. -/
abbrev Store := List User

/-- Modelled from the spec: the external persistence operation
`find_user_by_email(email) -> User|none` behind
`prisma.user.find_unique(where={"email": ...})` (the `database` module
itself is not part of the source tree). -/
def find_user_by_email (store : Store) (email : String) : Option User :=
  store.find? (fun u => u.email == email)

/-- Modelled from the spec: the external persistence operation
`find_user_by_id(id) -> User|none` behind
`prisma.user.find_unique(where={"id": ...})`. -/
def find_user_by_id (store : Store) (id : String) : Option User :=
  store.find? (fun u => u.id == id)

/-- Modelled from the spec: the external persistence operation
`create_user(email, password_hash) -> User` behind
`prisma.user.create`, with read-your-writes consistency; `freshId` is
the identifier the store generates for the new record. -/
def create_user (store : Store) (freshId email : String) (passwordHash : StoredHash) :
    User × Store :=
  let u : User := { id := freshId, email := email, passwordHash := some passwordHash }
  (u, store ++ [u])

/-- `get_current_user` from `api/deps.py`: resolves the user id via
`get_current_user_id`, loads the record by id, and answers 401
`"User not found"` (no challenge header) when the id no longer maps to
a user. -/
def get_current_user (store : Store) (req : Request) (now : Int) : Except HTTPError User :=
  match get_current_user_id req now with
  | .error e => .error e
  | .ok user_id =>
    match find_user_by_id store user_id with
    | none => .error userNotFoundErr
    | some user => .ok user

/-- `SignUpRequest` from `schemas/auth.py` (validation constraints on
the password length are enforced by pydantic before the route runs and
are not modelled). -/
structure SignUpRequest where
  email : String
  password : String
  deriving DecidableEq, Repr

/-- `SignInRequest` from `schemas/auth.py`. -/
structure SignInRequest where
  email : String
  password : String
  deriving DecidableEq, Repr

/-- `Token` from `schemas/auth.py`. -/
structure Token where
  access_token : JWT
  token_type : String
  deriving DecidableEq, Repr

/-- 400 `"Email already registered"` raised by `signup`. -/
def duplicateEmailErr : HTTPError :=
  { status := 400, detail := "Email already registered", wwwAuthenticate := false }

/-- 401 `"Invalid email or password"` raised by `signin`. -/
def invalidCredentialsErr : HTTPError :=
  { status := 401, detail := "Invalid email or password", wwwAuthenticate := false }

/-- What a route invocation can produce: a value, an `HTTPException`,
or an uncaught Python exception escaping to the framework. -/
inductive RouteResult (α : Type) where
  | ok (value : α)
  | httpError (e : HTTPError)
  | uncaught (e : PyError)
  deriving DecidableEq, Repr

/-- `signup` from `api/routes/auth.py`: rejects an email that already
has an account with 400 and no store mutation; otherwise hashes the
password, persists the new user, and returns a token for the new id
with the configured TTL.  `freshId` is the store-generated identifier
and `salt` the fresh hashing salt; the result is paired with the store
state after the call. -/
def signup (store : Store) (body : SignUpRequest) (freshId : String) (salt : Nat)
    (now : Int) : RouteResult Token × Store :=
  match find_user_by_email store body.email with
  | some _ => (.httpError duplicateEmailErr, store)
  | none =>
    let (user, store') := create_user store freshId body.email (hash_password body.password salt)
    let settings := get_settings
    let access_token :=
      create_access_token user.id (some (60 * settings.access_token_expire_minutes)) now
    (.ok { access_token := access_token, token_type := "bearer" }, store')

/-- `signin` from `api/routes/auth.py`: looks the user up by email,
reads the stored hash (`getattr` probing collapsed to the one
`passwordHash` field, with Python's `or` making an empty hash string
falsy), and answers the one generic 401 when the user is missing, the
hash is missing/falsy, or verification returns false; `verify_password`
is only reached with a user and a truthy hash (short-circuit `or`), and
an exception it raises escapes uncaught.  The store is returned
unchanged: the route only reads it. -/
def signin (store : Store) (body : SignInRequest) (now : Int) : RouteResult Token × Store :=
  let user := find_user_by_email store body.email
  let pwd_hash : Option StoredHash :=
    match user with
    | none => none
    | some u =>
      match u.passwordHash with
      | some h => if h == .malformed "" then none else some h
      | none => none
  match user, pwd_hash with
  | none, _ => (.httpError invalidCredentialsErr, store)
  | some _, none => (.httpError invalidCredentialsErr, store)
  | some u, some h =>
    match verify_password body.password h with
    | .error e => (.uncaught e, store)
    | .ok false => (.httpError invalidCredentialsErr, store)
    | .ok true =>
      let settings := get_settings
      let access_token :=
        create_access_token u.id (some (60 * settings.access_token_expire_minutes)) now
      (.ok { access_token := access_token, token_type := "bearer" }, store)

/-! ### Helper lemmas -/

/-- Decoding a token signed under the configured secret and algorithm
reduces to the expiry check and the `sub` lookup. -/
lemma decode_access_token_signed (claims : Claims) (now : Int) :
    decode_access_token (.signed claims get_settings.secret_key get_settings.algorithm) now =
      match claims.exp with
      | some e => if e < now then none else claims.sub
      | none => claims.sub := by
  simp only [decode_access_token, jose_decode, List.mem_singleton, not_true_eq_false,
    if_false, ne_eq, not_false_eq_true, if_neg]
  cases claims.exp with
  | none => rfl
  | some e =>
    by_cases h : e < now
    · simp [h]
    · simp [h]

/-- A well-formed (signed) token string is never the empty string. -/
lemma isFalsy_signed (c : Claims) (s a : String) : (JWT.signed c s a).isFalsy = false := by
  rfl

/-- `HTTPBearer` accepts a header with the exact scheme `"Bearer"` and
a non-empty credentials part. -/
lemma security_bearer_Bearer (t : JWT) (h : t.isFalsy = false) :
    security_bearer (some ⟨"Bearer", t⟩) = some t := by
  simp only [security_bearer]
  split_ifs with hc
  · rfl
  · exact absurd ⟨by decide, by simp [h], by decide⟩ hc

/-- `find?` skips a prefix in which nothing matches. -/
lemma find?_append_left_none {α : Type} (p : α → Bool) (l1 l2 : List α)
    (h : l1.find? p = none) : (l1 ++ l2).find? p = l2.find? p := by
  induction l1 with
  | nil => simp
  | cons a t ih =>
    rw [List.cons_append]
    cases hpa : p a with
    | true => simp [List.find?_cons, hpa] at h
    | false =>
      rw [List.find?_cons, hpa] at h
      rw [List.find?_cons, hpa]
      exact ih h

/-- `HTTPBearer` rejects a header whose credentials part is empty. -/
lemma security_bearer_falsy (s : String) (p : JWT) (h : p.isFalsy = true) :
    security_bearer (some ⟨s, p⟩) = none := by
  simp only [security_bearer]
  split_ifs with hc
  · exact absurd h (by simpa using hc.2.1)
  · rfl

/-! ### Claims -/

/-- C3, counterexample: the claim says `verify_password` returns false
on a malformed stored hash; on the string `"nothash"`, which passlib
cannot identify as a pbkdf2_sha256 hash, `CryptContext.verify` raises
`ValueError` and `verify_password` propagates it instead of returning
false. -/
theorem C3_counterexample :
    verify_password "secret1" (StoredHash.malformed "nothash") ≠ Except.ok false ∧
    verify_password "secret1" (StoredHash.malformed "nothash") =
      Except.error (PyError.valueError "hash could not be identified") := by
  constructor
  · intro h
    exact absurd h (by decide)
  · rfl

/-- C3, amended: for every plaintext and every well-formed
(pbkdf2_sha256) stored hash, `verify_password` returns a boolean
without raising — true exactly when the plaintext matches; for a hash
string passlib cannot identify, `verify_password` propagates passlib's
`ValueError` rather than returning false. -/
theorem C3_amended (plain pw raw : String) (salt : Nat) :
    (∃ b : Bool, verify_password plain (StoredHash.pbkdf2 pw salt) = Except.ok b) ∧
    (verify_password plain (StoredHash.pbkdf2 pw salt) = Except.ok true ↔ plain = pw) ∧
    verify_password plain (StoredHash.malformed raw) =
      Except.error (PyError.valueError "hash could not be identified") := by
  refine ⟨⟨plain == pw, rfl⟩, ?_, rfl⟩
  simp only [verify_password, pwd_context_verify]
  constructor
  · intro h
    have : (plain == pw) = true := by injection h
    exact eq_of_beq this
  · intro h
    subst h
    simp

/-- C6: decoding immediately after encoding returns the subject — for
every subject `s`, positive TTL `t` and issue time `now`,
`decode_access_token (create_access_token s t now)` evaluated at any
time up to `now + t` (in particular immediately, at `now`) yields
`some s`, under the one configured secret and algorithm. -/
theorem C6_encode_decode_roundtrip (s : String) (t now now2 : Int)
    (ht : 0 < t) (helapsed : now2 ≤ now + t) :
    decode_access_token (create_access_token s (some t) now) now2 = some s := by
  simp only [create_access_token, jose_encode]
  rw [if_pos ht.ne']
  rw [decode_access_token_signed]
  simp only []
  rw [if_neg (by omega)]

/-- C6 witness: subject `"alice"`, TTL 60 seconds, decoded at the
moment of issuance. -/
theorem C6_encode_decode_roundtrip_witness :
    decode_access_token (create_access_token "alice" (some 60) 0) 0 = some "alice" :=
  C6_encode_decode_roundtrip "alice" 60 0 0 (by decide) (by decide)

/-- C7: `decode_access_token` never raises — each failure mode
(malformed token string, header algorithm different from the configured
one, signature not verifying under the configured secret, `exp` claim
in the past, and in particular any token evaluated after its TTL has
elapsed) yields the explicit invalid result `none`.  The last two
conjuncts cover every token `create_access_token` can produce: a truthy
(non-zero) `expires_delta` sets the expiry to `issued + t`, while an
absent or zero (falsy) `expires_delta` sets it to the configured
default TTL. -/
theorem C7_decode_never_raises (now : Int) :
    (∀ raw, decode_access_token (JWT.malformed raw) now = none) ∧
    (∀ claims secret alg, alg ≠ get_settings.algorithm →
      decode_access_token (JWT.signed claims secret alg) now = none) ∧
    (∀ claims secret alg, secret ≠ get_settings.secret_key →
      decode_access_token (JWT.signed claims secret alg) now = none) ∧
    (∀ claims secret alg e, claims.exp = some e → e < now →
      decode_access_token (JWT.signed claims secret alg) now = none) ∧
    (∀ s t issued, t ≠ 0 → issued + t < now →
      decode_access_token (create_access_token s (some t) issued) now = none) ∧
    (∀ s d issued, (d = none ∨ d = some 0) →
      issued + 60 * get_settings.access_token_expire_minutes < now →
      decode_access_token (create_access_token s d issued) now = none) := by
  refine ⟨fun raw => rfl, ?_, ?_, ?_, ?_, ?_⟩
  · intro claims secret alg halg
    simp [decode_access_token, jose_decode, halg]
  · intro claims secret alg hsecret
    simp only [decode_access_token, jose_decode]
    split_ifs <;> simp_all
  · intro claims secret alg e hexp hlt
    simp only [decode_access_token, jose_decode]
    split_ifs <;> simp_all
  · intro s t issued ht0 hlate
    simp only [create_access_token, jose_encode]
    rw [if_pos ht0]
    rw [decode_access_token_signed]
    simp only []
    rw [if_pos hlate]
  · intro s d issued hd hlate
    rcases hd with hd | hd
    · subst hd
      simp only [create_access_token, jose_encode]
      rw [decode_access_token_signed]
      simp only []
      rw [if_pos hlate]
    · subst hd
      simp only [create_access_token, jose_encode]
      rw [if_neg (by simp)]
      rw [decode_access_token_signed]
      simp only []
      rw [if_pos hlate]

/-- C7 witness: a token with TTL 10 issued at time 0 decodes to `none`
at time 11, after its TTL has elapsed, and a token issued at time 0
with the falsy zero `timedelta` (hence the default 1440-minute TTL)
decodes to `none` at time 86401. -/
theorem C7_decode_never_raises_witness :
    decode_access_token (create_access_token "alice" (some 10) 0) 11 = none ∧
    decode_access_token (create_access_token "alice" (some 0) 0) 86401 = none :=
  ⟨(C7_decode_never_raises 11).2.2.2.2.1 "alice" 10 0 (by decide) (by decide),
   (C7_decode_never_raises 86401).2.2.2.2.2 "alice" (some 0) 0 (Or.inr rfl) (by decide)⟩

/-- C4: when the email already has an account, `signup` fails with the
400 duplicate-email error and returns the store unchanged (no user
created, the existing account's stored hash untouched); when the email
is free, `signup` appends exactly one new `User` record — with the
fresh id, the given email, and the hash of the given password — and
returns a bearer token for the new id. -/
theorem C4_signup_duplicate_and_success (store : Store) (body : SignUpRequest)
    (freshId : String) (salt : Nat) (now : Int) :
    ((∃ u, find_user_by_email store body.email = some u) →
      signup store body freshId salt now = (.httpError duplicateEmailErr, store)) ∧
    (find_user_by_email store body.email = none →
      signup store body freshId salt now =
        (.ok { access_token := create_access_token freshId
                 (some (60 * get_settings.access_token_expire_minutes)) now,
               token_type := "bearer" },
         store ++ [{ id := freshId, email := body.email,
                     passwordHash := some (hash_password body.password salt) }])) := by
  constructor
  · rintro ⟨u, hu⟩
    simp [signup, hu]
  · intro h
    simp [signup, h, create_user]

/-- C4 witness: a second signup for `"a@x.com"` fails with the 400
duplicate-email error and leaves the one-user store unchanged, and a
signup on the empty store creates exactly the one new record. -/
theorem C4_signup_duplicate_and_success_witness :
    signup [{ id := "u1", email := "a@x.com", passwordHash := some (.pbkdf2 "secret1" 7) }]
        { email := "a@x.com", password := "secret2" } "u2" 8 0 =
      (.httpError duplicateEmailErr,
       [{ id := "u1", email := "a@x.com", passwordHash := some (.pbkdf2 "secret1" 7) }]) ∧
    signup [] { email := "a@x.com", password := "secret1" } "u1" 7 0 =
      (.ok { access_token := create_access_token "u1"
               (some (60 * get_settings.access_token_expire_minutes)) 0,
             token_type := "bearer" },
       [{ id := "u1", email := "a@x.com", passwordHash := some (hash_password "secret1" 7) }]) :=
  ⟨(C4_signup_duplicate_and_success
      [{ id := "u1", email := "a@x.com", passwordHash := some (.pbkdf2 "secret1" 7) }]
      { email := "a@x.com", password := "secret2" } "u2" 8 0).1
    ⟨{ id := "u1", email := "a@x.com", passwordHash := some (.pbkdf2 "secret1" 7) }, by decide⟩,
   (C4_signup_duplicate_and_success []
      { email := "a@x.com", password := "secret1" } "u1" 7 0).2 (by decide)⟩

/-- C5: every failing `signin` among the three causes — unknown email,
account without a (truthy) stored hash, or password verification
returning false on a well-formed hash — surfaces the one generic
401 `"Invalid email or password"` error and leaves the store unchanged
(no side effects); in particular an unknown-email run and a
wrong-password run produce equal results, indistinguishable to the
caller. -/
theorem C5_signin_generic_failure (store : Store) (body : SignInRequest) (now : Int) :
    (find_user_by_email store body.email = none →
      signin store body now = (.httpError invalidCredentialsErr, store)) ∧
    (∀ u, find_user_by_email store body.email = some u →
      (u.passwordHash = none ∨ u.passwordHash = some (.malformed "")) →
      signin store body now = (.httpError invalidCredentialsErr, store)) ∧
    (∀ u pw salt, find_user_by_email store body.email = some u →
      u.passwordHash = some (.pbkdf2 pw salt) → body.password ≠ pw →
      signin store body now = (.httpError invalidCredentialsErr, store)) ∧
    (∀ (store2 : Store) (body2 : SignInRequest) (now2 : Int) u pw salt,
      find_user_by_email store body.email = none →
      find_user_by_email store2 body2.email = some u →
      u.passwordHash = some (.pbkdf2 pw salt) → body2.password ≠ pw →
      (signin store body now).1 = (signin store2 body2 now2).1) := by
  have hnone : find_user_by_email store body.email = none →
      signin store body now = (.httpError invalidCredentialsErr, store) := by
    intro h
    simp [signin, h]
  have hhash : ∀ u, find_user_by_email store body.email = some u →
      (u.passwordHash = none ∨ u.passwordHash = some (.malformed "")) →
      signin store body now = (.httpError invalidCredentialsErr, store) := by
    intro u hu hph
    rcases hph with hph | hph <;> simp [signin, hu, hph]
  have hwrong : ∀ (store' : Store) (body' : SignInRequest) (now' : Int) u pw salt,
      find_user_by_email store' body'.email = some u →
      u.passwordHash = some (.pbkdf2 pw salt) → body'.password ≠ pw →
      signin store' body' now' = (.httpError invalidCredentialsErr, store') := by
    intro store' body' now' u pw salt hu hph hne
    have hbeq : (body'.password == pw) = false := beq_eq_false_iff_ne.mpr hne
    simp [signin, hu, hph, verify_password, pwd_context_verify, hbeq]
  refine ⟨hnone, hhash, fun u pw salt hu hph hne => hwrong store body now u pw salt hu hph hne,
    ?_⟩
  intro store2 body2 now2 u pw salt h1 h2 h3 h4
  rw [hnone h1, hwrong store2 body2 now2 u pw salt h2 h3 h4]

/-- C5 witness: against a store holding `a@x.com` with the hash of
`"secret1"`, a signin for the unknown email `b@x.com` and a signin for
`a@x.com` with the wrong password both produce exactly the generic
401 error with the store unchanged, and their results are equal. -/
theorem C5_signin_generic_failure_witness :
    (signin [{ id := "u1", email := "a@x.com", passwordHash := some (.pbkdf2 "secret1" 7) }]
        { email := "b@x.com", password := "secret1" } 5 =
      (.httpError invalidCredentialsErr,
       [{ id := "u1", email := "a@x.com", passwordHash := some (.pbkdf2 "secret1" 7) }])) ∧
    (signin [{ id := "u1", email := "a@x.com", passwordHash := some (.pbkdf2 "secret1" 7) }]
        { email := "a@x.com", password := "wrong" } 5).1 =
      (signin [{ id := "u1", email := "a@x.com", passwordHash := some (.pbkdf2 "secret1" 7) }]
        { email := "b@x.com", password := "secret1" } 5).1 :=
  ⟨(C5_signin_generic_failure
      [{ id := "u1", email := "a@x.com", passwordHash := some (.pbkdf2 "secret1" 7) }]
      { email := "b@x.com", password := "secret1" } 5).1 (by decide),
   ((C5_signin_generic_failure
      [{ id := "u1", email := "a@x.com", passwordHash := some (.pbkdf2 "secret1" 7) }]
      { email := "b@x.com", password := "secret1" } 5).2.2.2
      [{ id := "u1", email := "a@x.com", passwordHash := some (.pbkdf2 "secret1" 7) }]
      { email := "a@x.com", password := "wrong" } 5
      { id := "u1", email := "a@x.com", passwordHash := some (.pbkdf2 "secret1" 7) }
      "secret1" 7 (by decide) (by decide) (by decide) (by decide)).symm⟩

/-- C9: a request bearing a valid token — well signed under the
configured secret and algorithm, unexpired, with a non-empty subject —
whose subject no longer maps to a user in the store passes
`get_current_user_id` (so the token itself is accepted) but makes
`get_current_user` fail with the account-not-found error, a failure
distinct from both `Unauthenticated` errors raised for missing and for
invalid tokens. -/
theorem C9_valid_token_deleted_account (store : Store) (cookie : Option JWT)
    (uid : String) (e now : Int)
    (huid : uid ≠ "") (hunexpired : ¬ e < now)
    (hmiss : find_user_by_id store uid = none) :
    get_current_user store
        { authorization := some ⟨"Bearer",
            .signed { sub := some uid, exp := some e } get_settings.secret_key
              get_settings.algorithm⟩,
          cookieAccessToken := cookie } now = .error userNotFoundErr ∧
    get_current_user_id
        { authorization := some ⟨"Bearer",
            .signed { sub := some uid, exp := some e } get_settings.secret_key
              get_settings.algorithm⟩,
          cookieAccessToken := cookie } now = .ok uid ∧
    userNotFoundErr ≠ notAuthenticatedErr ∧ userNotFoundErr ≠ invalidTokenErr := by
  have hid : get_current_user_id
      { authorization := some ⟨"Bearer",
          .signed { sub := some uid, exp := some e } get_settings.secret_key
            get_settings.algorithm⟩,
        cookieAccessToken := cookie } now = .ok uid := by
    simp only [get_current_user_id, security_bearer_Bearer _ (isFalsy_signed _ _ _),
      isFalsy_signed, decode_access_token_signed]
    simp [hunexpired, huid]
  refine ⟨?_, hid, by decide, by decide⟩
  simp [get_current_user, hid, hmiss]

/-- C9 witness: a valid unexpired token for subject `"ghost"` against
the empty store: the id resolver accepts it, the full-user resolver
answers the distinct account-not-found error. -/
theorem C9_valid_token_deleted_account_witness :
    get_current_user []
        { authorization := some ⟨"Bearer",
            .signed { sub := some "ghost", exp := some 100 } get_settings.secret_key
              get_settings.algorithm⟩,
          cookieAccessToken := none } 50 = .error userNotFoundErr ∧
    get_current_user_id
        { authorization := some ⟨"Bearer",
            .signed { sub := some "ghost", exp := some 100 } get_settings.secret_key
              get_settings.algorithm⟩,
          cookieAccessToken := none } 50 = .ok "ghost" ∧
    userNotFoundErr ≠ notAuthenticatedErr ∧ userNotFoundErr ≠ invalidTokenErr :=
  C9_valid_token_deleted_account [] none "ghost" 100 50 (by decide) (by decide) (by decide)

/-- C10: a token that verifies under the configured secret and
algorithm and is unexpired but carries no `sub` claim decodes to
`none`, and a request presenting it as a bearer header is rejected by
`get_current_user_id` with the 401 invalid-token `Unauthenticated`
error even though the signature is valid. -/
theorem C10_valid_signature_no_sub (cookie : Option JWT) (e now : Int)
    (hunexpired : ¬ e < now) :
    decode_access_token
        (.signed { sub := none, exp := some e } get_settings.secret_key
          get_settings.algorithm) now = none ∧
    get_current_user_id
        { authorization := some ⟨"Bearer",
            .signed { sub := none, exp := some e } get_settings.secret_key
              get_settings.algorithm⟩,
          cookieAccessToken := cookie } now = .error invalidTokenErr := by
  have hdec : decode_access_token
      (.signed { sub := none, exp := some e } get_settings.secret_key
        get_settings.algorithm) now = none := by
    rw [decode_access_token_signed]
    simp [hunexpired]
  refine ⟨hdec, ?_⟩
  simp [get_current_user_id, security_bearer_Bearer _ (isFalsy_signed _ _ _),
    isFalsy_signed, hdec]

/-- C10 witness: a signed, unexpired token with no `sub` claim decodes
to `none` and is rejected as invalid at time 50. -/
theorem C10_valid_signature_no_sub_witness :
    decode_access_token
        (.signed { sub := none, exp := some 100 } get_settings.secret_key
          get_settings.algorithm) 50 = none ∧
    get_current_user_id
        { authorization := some ⟨"Bearer",
            .signed { sub := none, exp := some 100 } get_settings.secret_key
              get_settings.algorithm⟩,
          cookieAccessToken := none } 50 = .error invalidTokenErr :=
  C10_valid_signature_no_sub none 100 50 (by decide)

/-- C8: after a successful signup for a free email, a signin with that
email and any wrong password fails with the generic 401
invalid-credentials error, while a signin with the correct password
succeeds and returns a token whose decoded subject is the created
account's identifier (decoded at any time up to the token's expiry). -/
theorem C8_signin_after_signup (store : Store) (email pw wrong freshId : String)
    (salt : Nat) (now now2 now3 : Int)
    (hfree : find_user_by_email store email = none)
    (hwrong : wrong ≠ pw)
    (hfresh : now3 ≤ now2 + 60 * get_settings.access_token_expire_minutes) :
    (signin (signup store { email := email, password := pw } freshId salt now).2
        { email := email, password := wrong } now2).1 =
      .httpError invalidCredentialsErr ∧
    ∃ tok, (signin (signup store { email := email, password := pw } freshId salt now).2
        { email := email, password := pw } now2).1 = .ok tok ∧
      decode_access_token tok.access_token now3 = some freshId := by
  have hstore : (signup store { email := email, password := pw } freshId salt now).2 =
      store ++ [{ id := freshId, email := email,
                  passwordHash := some (.pbkdf2 pw salt) }] := by
    simp [signup, hfree, create_user, hash_password]
  have hfind : find_user_by_email
      (store ++ [{ id := freshId, email := email,
                   passwordHash := some (.pbkdf2 pw salt) }]) email =
      some { id := freshId, email := email, passwordHash := some (.pbkdf2 pw salt) } := by
    rw [find_user_by_email, find?_append_left_none _ _ _ hfree]
    simp [List.find?_cons]
  have hbeqw : (wrong == pw) = false := beq_eq_false_iff_ne.mpr hwrong
  constructor
  · rw [hstore]
    simp [signin, hfind, verify_password, pwd_context_verify, hbeqw]
  · refine ⟨Token.mk (create_access_token freshId
        (some (60 * get_settings.access_token_expire_minutes)) now2) "bearer", ?_, ?_⟩
    · rw [hstore]
      simp [signin, hfind, verify_password, pwd_context_verify]
    · simp only [create_access_token, jose_encode]
      rw [decode_access_token_signed]
      simp only []
      rw [if_neg (by omega)]

/-- C8 witness: signup of `a@x.com` with `"secret1"` on the empty
store, then a wrong-password signin fails generically and the
correct-password signin yields a token decoding to the new id. -/
theorem C8_signin_after_signup_witness :
    (signin (signup [] { email := "a@x.com", password := "secret1" } "u1" 7 0).2
        { email := "a@x.com", password := "wrong" } 5).1 =
      .httpError invalidCredentialsErr ∧
    ∃ tok, (signin (signup [] { email := "a@x.com", password := "secret1" } "u1" 7 0).2
        { email := "a@x.com", password := "secret1" } 5).1 = .ok tok ∧
      decode_access_token tok.access_token 6 = some "u1" :=
  C8_signin_after_signup [] "a@x.com" "secret1" "wrong" "u1" 7 0 5 6
    (by decide) (by decide) (by decide)

/-- C1, counterexample: a request carrying both a valid bearer header
token (subject `"alice"`) and a different valid cookie token (subject
`"bob"`): the optional resolver `get_optional_user_id` answers the
cookie's subject `"bob"`, not the header's — so the header does not
take precedence in the optional resolver, refuting the claim; the
required resolver does answer the header's subject. -/
theorem C1_header_precedence_counterexample :
    get_optional_user_id
        { authorization := some ⟨"Bearer", create_access_token "alice" (some 100) 0⟩,
          cookieAccessToken := some (create_access_token "bob" (some 100) 0) } 50 =
      some "bob" ∧
    decode_access_token (create_access_token "alice" (some 100) 0) 50 = some "alice" ∧
    decode_access_token (create_access_token "bob" (some 100) 0) 50 = some "bob" ∧
    get_current_user_id
        { authorization := some ⟨"Bearer", create_access_token "alice" (some 100) 0⟩,
          cookieAccessToken := some (create_access_token "bob" (some 100) 0) } 50 =
      .ok "alice" := by
  decide

/-- C1, amended: when a request carries both a bearer `Authorization`
header (accepted by `HTTPBearer`: non-empty scheme lowercasing to
`"bearer"`, non-empty credentials) and a non-empty access-token cookie,
the required resolver `get_current_user_id` uses the header token —
it behaves exactly as if the cookie were absent — while the optional
resolver `get_optional_user_id` uses the cookie token, behaving exactly
as if the header were absent: header precedence holds only for the
required resolver, cookie precedence for the optional one. -/
theorem C1_amended_precedence (v : AuthHeaderVal) (c : JWT) (now : Int)
    (hscheme : lowerString v.scheme = "bearer") (hne : v.scheme ≠ "")
    (hparam : v.param.isFalsy = false) (hcookie : c.isFalsy = false) :
    get_current_user_id { authorization := some v, cookieAccessToken := some c } now =
      get_current_user_id { authorization := some v, cookieAccessToken := none } now ∧
    get_optional_user_id { authorization := some v, cookieAccessToken := some c } now =
      get_optional_user_id { authorization := none, cookieAccessToken := some c } now := by
  have hsb : security_bearer (some v) = some v.param := by
    simp only [security_bearer]
    split_ifs with h
    · rfl
    · exact absurd ⟨hne, by simp [hparam], hscheme⟩ h
  constructor
  · simp [get_current_user_id, hsb]
  · simp [get_optional_user_id, hcookie]

/-- C1 amended witness: the two-token request of the counterexample:
the required resolver resolves as with the header alone, the optional
resolver as with the cookie alone. -/
theorem C1_amended_precedence_witness :
    get_current_user_id
        { authorization := some ⟨"Bearer", create_access_token "alice" (some 100) 0⟩,
          cookieAccessToken := some (create_access_token "bob" (some 100) 0) } 50 =
      get_current_user_id
        { authorization := some ⟨"Bearer", create_access_token "alice" (some 100) 0⟩,
          cookieAccessToken := none } 50 ∧
    get_optional_user_id
        { authorization := some ⟨"Bearer", create_access_token "alice" (some 100) 0⟩,
          cookieAccessToken := some (create_access_token "bob" (some 100) 0) } 50 =
      get_optional_user_id
        { authorization := none,
          cookieAccessToken := some (create_access_token "bob" (some 100) 0) } 50 :=
  C1_amended_precedence ⟨"Bearer", create_access_token "alice" (some 100) 0⟩
    (create_access_token "bob" (some 100) 0) 50 (by decide) (by decide) rfl rfl

/-- C2, counterexample: a request with an undecodable cookie token next
to a valid bearer header token: the required resolver uses the header
and succeeds, yet the optional resolver (which prefers the cookie)
returns `none` — so `none` is not returned exactly on the requests
where the required resolver fails, refuting the claim. -/
theorem C2_optional_matches_required_counterexample :
    get_current_user_id
        { authorization := some ⟨"Bearer", create_access_token "alice" (some 100) 0⟩,
          cookieAccessToken := some (JWT.malformed "junk") } 50 = .ok "alice" ∧
    get_optional_user_id
        { authorization := some ⟨"Bearer", create_access_token "alice" (some 100) 0⟩,
          cookieAccessToken := some (JWT.malformed "junk") } 50 = none := by
  decide

/-- C2, amended: `get_optional_user_id` never raises (it is a total
function into an option, with no error outcome), and it returns `none`
exactly on the requests where `get_current_user_id` fails — provided
the two resolvers read the same token: any `Authorization` header uses
the exact scheme spelling `"Bearer"`, the request does not carry a
non-empty header credential and a non-empty cookie token
simultaneously, and no presented token decodes to the empty-string
subject (which the required resolver rejects but the optional one
passes through). -/
theorem C2_amended_optional_matches_required (req : Request) (now : Int)
    (hscheme : ∀ v, req.authorization = some v → v.scheme = "Bearer")
    (hone : ¬ ((∃ c, req.cookieAccessToken = some c ∧ c.isFalsy = false) ∧
               (∃ v, req.authorization = some v ∧ v.param.isFalsy = false)))
    (hsubC : ∀ c, req.cookieAccessToken = some c → decode_access_token c now ≠ some "")
    (hsubH : ∀ v, req.authorization = some v → decode_access_token v.param now ≠ some "") :
    (get_optional_user_id req now = none ↔ ∃ e, get_current_user_id req now = .error e) := by
  rcases req with ⟨auth, cookie⟩
  cases auth with
  | none =>
    cases cookie with
    | none =>
      simp [get_optional_user_id, get_current_user_id, security_bearer]
    | some c =>
      cases hc : c.isFalsy with
      | true =>
        simp [get_optional_user_id, get_current_user_id, security_bearer, hc]
      | false =>
        cases hd : decode_access_token c now with
        | none => simp [get_optional_user_id, get_current_user_id, security_bearer, hc, hd]
        | some uid =>
          have huid : ¬ uid = "" := fun h => hsubC c rfl (h ▸ hd)
          simp [get_optional_user_id, get_current_user_id, security_bearer, hc, hd, huid]
  | some v =>
    obtain ⟨s, p⟩ := v
    have hs : s = "Bearer" := hscheme ⟨s, p⟩ rfl
    subst hs
    cases hp : p.isFalsy with
    | true =>
      have hsb := security_bearer_falsy "Bearer" p hp
      cases cookie with
      | none =>
        simp [get_optional_user_id, get_current_user_id, hsb, hp]
      | some c =>
        cases hc : c.isFalsy with
        | true => simp [get_optional_user_id, get_current_user_id, hsb, hp, hc]
        | false =>
          cases hd : decode_access_token c now with
          | none => simp [get_optional_user_id, get_current_user_id, hsb, hp, hc, hd]
          | some uid =>
            have huid : ¬ uid = "" := fun h => hsubC c rfl (h ▸ hd)
            simp [get_optional_user_id, get_current_user_id, hsb, hp, hc, hd, huid]
    | false =>
      have hsb := security_bearer_Bearer p hp
      cases cookie with
      | none =>
        cases hd : decode_access_token p now with
        | none => simp [get_optional_user_id, get_current_user_id, hsb, hp, hd]
        | some uid =>
          have huid : ¬ uid = "" := fun h => hsubH ⟨"Bearer", p⟩ rfl (h ▸ hd)
          simp [get_optional_user_id, get_current_user_id, hsb, hp, hd, huid]
      | some c =>
        have hc : c.isFalsy = true := by
          by_contra h
          exact hone ⟨⟨c, rfl, by simpa using h⟩, ⟨⟨"Bearer", p⟩, rfl, hp⟩⟩
        cases hd : decode_access_token p now with
        | none => simp [get_optional_user_id, get_current_user_id, hsb, hp, hc, hd]
        | some uid =>
          have huid : ¬ uid = "" := fun h => hsubH ⟨"Bearer", p⟩ rfl (h ▸ hd)
          simp [get_optional_user_id, get_current_user_id, hsb, hp, hc, hd, huid]

/-- C2 amended witness: a request with only an invalid cookie token:
the optional resolver returns `none` and the required resolver indeed
fails (with the invalid-token error). -/
theorem C2_amended_optional_matches_required_witness :
    get_optional_user_id
        { authorization := none, cookieAccessToken := some (JWT.malformed "junk") } 50 =
      none ↔ ∃ e, get_current_user_id
        { authorization := none, cookieAccessToken := some (JWT.malformed "junk") } 50 =
      .error e :=
  C2_amended_optional_matches_required
    { authorization := none, cookieAccessToken := some (JWT.malformed "junk") } 50
    (fun v h => by cases h) (by simp) (fun c h => by cases h; decide) (fun v h => by cases h)

end EventBoard
